import Mathlib

/-!
Shallow embedding of the session, request-retry and event-dispatch core of
`python_interface/api_client.py` (class `ChaosApiClient`).

Modelling conventions:
* The HTTP transport is an oracle: a `World` holds a queue of pending
  `TransportResult`s (one per transport call, consumed in order) together
  with a trace `sent` of the requests handed to the transport.  An empty
  queue behaves like a network failure.
* `aiohttp` raising during a call is `TransportResult.netError`; a response
  whose body cannot be decoded as JSON (so that `response.json()` raises) is
  modelled with `body = none`.
* Python truthiness of the stored token strings is modelled by `truthy`
  (`None` and the empty string are falsy).
* On-disk token persistence (`_load_tokens` / `_save_tokens`) is external
  I/O at the module boundary; `ChaosApiClient.init` receives the stored file
  content as a parameter, and the save/remove calls do not affect the
  in-memory state modelled here.
* The WebSocket event machinery (`on_event`, `_process_event`,
  `_ws_listener`) is modelled over an explicit registry and a finite list of
  inbound frames; a frame is `none` when its text is not valid JSON.
-/

/-- `aiohttp` `response.ok`: status below 400. -/
def respOk (status : Nat) : Bool := decide (status < 400)

/-- Python truthiness of an optional string: `None` and `""` are falsy. -/
def truthy : Option String → Bool
  | none => false
  | some s => !s.isEmpty

/-- The f-string `f"Bearer {self._token}"`; Python renders `None` as `"None"`. -/
def bearerOf : Option String → String
  | some t => "Bearer " ++ t
  | none => "Bearer None"

/-- Dict assignment `headers[k] = v`: replace in place if present, else append. -/
def setHeader (hs : List (String × String)) (k v : String) : List (String × String) :=
  if hs.any (fun p => p.1 == k) then
    hs.map (fun p => if p.1 == k then (k, v) else p)
  else hs ++ [(k, v)]

/-- Dict `headers.pop(k, None)`: remove every binding of `k`. -/
def popHeader (hs : List (String × String)) (k : String) : List (String × String) :=
  hs.filter (fun p => !(p.1 == k))

/-- Dict lookup `headers.get(k)`. -/
def getHeader (hs : List (String × String)) (k : String) : Option String :=
  (hs.find? (fun p => p.1 == k)).map Prod.snd

/-- The `error` object of the uniform error envelope: optional `message`
    and `code` fields. -/
structure ErrBody where
  message : Option String
  code : Option String
deriving Repr, DecidableEq

/-- A decoded JSON response body, restricted to the fields the client reads:
    `token`, `refreshToken`, and the `error` envelope. -/
structure RespBody where
  token : Option String
  refreshToken : Option String
  error : Option ErrBody
deriving Repr, DecidableEq

/-- An HTTP response: status plus decoded body (`none` when `response.json()`
    would raise on undecodable content). -/
structure HttpResponse where
  status : Nat
  body : Option RespBody
deriving Repr, DecidableEq

/-- Outcome of one transport call: a response, or the transport raising. -/
inductive TransportResult where
  | ok (r : HttpResponse)
  | netError
deriving Repr, DecidableEq

/-- A request that was handed to the transport, tagged with the code site
    that issued it. -/
structure SentReq where
  site : String
  method : String
  url : String
  headers : List (String × String)
deriving Repr, DecidableEq

/-- The transport oracle: queued responses (consumed in order) and the trace
    of issued requests. -/
structure World where
  queue : List TransportResult
  sent : List SentReq
deriving Repr, DecidableEq

/-- Issue one transport call: record the request and consume the next queued
    outcome (an exhausted queue behaves as a network failure). -/
def sendReq (site method url : String) (headers : List (String × String)) (w : World) :
    TransportResult × World :=
  match w.queue with
  | [] => (TransportResult.netError, ⟨[], w.sent ++ [⟨site, method, url, headers⟩]⟩)
  | r :: rest => (r, ⟨rest, w.sent ++ [⟨site, method, url, headers⟩]⟩)

/-- Number of trace entries issued from a given code site. -/
def countSite (site : String) (l : List SentReq) : Nat :=
  (l.filter (fun r => r.site == site)).length

/-- Session state of the Python `ChaosApiClient` object: base URL, the two
    stored tokens, and the outgoing header dict. -/
structure ChaosApiClient where
  base_url : String
  _token : Option String
  _refresh_token : Option String
  _headers : List (String × String)
deriving Repr, DecidableEq

/-- `__init__` together with `_load_tokens`: `configUrl` is
    `config.get("api.url")`, `stored` is the content of the persisted token
    file (`none` when the file is absent or unreadable). -/
def ChaosApiClient.init (configUrl : String) (base_url : Option String)
    (token : Option String) (stored : Option (Option String × Option String)) :
    ChaosApiClient :=
  let url := match base_url with
    | some u => if u.isEmpty then configUrl else u
    | none => configUrl
  let s₀ : ChaosApiClient := ⟨url, token, none, [("Content-Type", "application/json")]⟩
  let s₁ : ChaosApiClient :=
    if truthy token = false then
      match stored with
      | some tr => ⟨s₀.base_url, tr.1, tr.2, s₀._headers⟩
      | none => s₀
    else s₀
  if truthy s₁._token then
    ⟨s₁.base_url, s₁._token, s₁._refresh_token,
      setHeader s₁._headers "Authorization" (bearerOf s₁._token)⟩
  else s₁

/-- `refresh_token()`: requires a truthy refresh token, posts to the refresh
    endpoint on a fresh session, and on success replaces the access token and
    recomputes the `Authorization` header; every failure path returns `False`
    (the `try` block swallows transport and decode exceptions). -/
def ChaosApiClient.refresh_token (s : ChaosApiClient) (w : World) :
    Bool × ChaosApiClient × World :=
  if truthy s._refresh_token = false then (false, s, w)
  else
    match sendReq "refresh" "POST" (s.base_url ++ "/api/auth/refresh")
        [("Content-Type", "application/json")] w with
    | (TransportResult.netError, w₁) => (false, s, w₁)
    | (TransportResult.ok r, w₁) =>
      if respOk r.status = false then (false, s, w₁)
      else
        match r.body with
        | none => (false, s, w₁)
        | some b =>
          (true,
            ⟨s.base_url, b.token, s._refresh_token,
              setHeader s._headers "Authorization" (bearerOf b.token)⟩,
            w₁)

/-- The token-clearing block shared by both branches of `logout`. -/
def clearedTokens (s : ChaosApiClient) : ChaosApiClient :=
  ⟨s.base_url, none, none, popHeader s._headers "Authorization"⟩

/-- `logout()`: with no truthy refresh token it returns `True` immediately;
    otherwise it posts to the logout endpoint and clears the local tokens and
    the `Authorization` header regardless of the transport outcome, returning
    `response.ok` (or `False` when the transport raised). -/
def ChaosApiClient.logout (s : ChaosApiClient) (w : World) :
    Bool × ChaosApiClient × World :=
  if truthy s._refresh_token = false then (true, s, w)
  else
    match sendReq "logout" "POST" (s.base_url ++ "/api/auth/logout") s._headers w with
    | (TransportResult.netError, w₁) => (false, clearedTokens s, w₁)
    | (TransportResult.ok r, w₁) => (respOk r.status, clearedTokens s, w₁)

/-- Errors a primary operation can surface: an `ApiError` (status, message,
    code), or an uncaught transport / body-decode exception. -/
structure ApiErrorData where
  status_code : Nat
  message : String
  error_code : String
deriving Repr, DecidableEq

/-- Failure modes of `login` and `_request`. -/
inductive RequestError where
  | apiError (e : ApiErrorData)
  | netException
  | decodeException
deriving Repr, DecidableEq

/-- `login(email, password)`: posts credentials on a fresh session; on a
    non-ok status raises `ApiError` from the error envelope, otherwise stores
    both tokens and recomputes the `Authorization` header. -/
def ChaosApiClient.login (s : ChaosApiClient) (email password : String) (w : World) :
    Except RequestError RespBody × ChaosApiClient × World :=
  match sendReq "login" "POST" (s.base_url ++ "/api/auth/login")
      [("Content-Type", "application/json")] w with
  | (TransportResult.netError, w₁) => (Except.error RequestError.netException, s, w₁)
  | (TransportResult.ok r, w₁) =>
    match r.body with
    | none => (Except.error RequestError.decodeException, s, w₁)
    | some b =>
      if respOk r.status = false then
        let e := b.error.getD ⟨none, none⟩
        (Except.error (RequestError.apiError
          ⟨r.status, e.message.getD "Authentication failed", e.code.getD "AUTH_ERROR"⟩),
          s, w₁)
      else
        (Except.ok b,
          ⟨s.base_url, b.token, b.refreshToken,
            setHeader s._headers "Authorization" (bearerOf b.token)⟩,
          w₁)

/-- The tail of `_request` once no (further) auth retry happens: return the
    decoded body on success, otherwise raise `ApiError` built from the
    response status and its error envelope. -/
def finishRequest (status : Nat) (b : RespBody) (s : ChaosApiClient) (w : World) :
    Except RequestError RespBody × ChaosApiClient × World :=
  if respOk status then (Except.ok b, s, w)
  else
    let e := b.error.getD ⟨none, none⟩
    (Except.error (RequestError.apiError
      ⟨status, e.message.getD "Request failed", e.code.getD "API_ERROR"⟩), s, w)

/-- `_request(method, endpoint, data, retry_auth)`: send with the current
    headers; `response.json()` runs first (an undecodable body raises before
    the 401 check); on a 401 with `retry_auth` and a truthy refresh token,
    run `refresh_token()` and, if it succeeded, re-issue the identical call
    once with `retry_auth = false`; otherwise fall through to the error /
    success handling of the original response. -/
def ChaosApiClient._request (s : ChaosApiClient) (method endpoint : String)
    (data : Option String) (retry_auth : Bool) (w : World) :
    Except RequestError RespBody × ChaosApiClient × World :=
  match sendReq "request" method (s.base_url ++ endpoint) s._headers w with
  | (TransportResult.netError, w₁) => (Except.error RequestError.netException, s, w₁)
  | (TransportResult.ok r, w₁) =>
    match r.body with
    | none => (Except.error RequestError.decodeException, s, w₁)
    | some b =>
      if h : r.status = 401 ∧ retry_auth = true ∧ truthy s._refresh_token = true then
        match ChaosApiClient.refresh_token s w₁ with
        | (true, s₁, w₂) => ChaosApiClient._request s₁ method endpoint data false w₂
        | (false, s₁, w₂) => finishRequest r.status b s₁ w₂
      else finishRequest r.status b s w₁
termination_by (if retry_auth then 1 else 0)
decreasing_by simp [h.2.1]

/-- Stream connection errors: the `ValueError` precondition raise and the
    `ConnectionError` wrapping a transport failure. -/
inductive ConnectError where
  | precondition (msg : String)
  | connectionFailed (msg : String)
deriving Repr, DecidableEq

/-- `connect_websocket()`: raises `ValueError` before any transport call when
    the access token is not truthy; otherwise performs exactly one transport
    connect attempt, surfacing its failure as a `ConnectionError`.  The second
    component counts transport-level connect attempts. -/
def ChaosApiClient.connect_websocket (s : ChaosApiClient) (transportOk : Bool) :
    Except ConnectError Unit × Nat :=
  if truthy s._token = false then
    (Except.error
      (ConnectError.precondition "Authentication required before connecting to WebSocket"), 0)
  else if transportOk then (Except.ok (), 1)
  else (Except.error (ConnectError.connectionFailed "WebSocket connection failed"), 1)

/-- An event payload dict (the `data` member of an inbound envelope). -/
abbrev Payload := List (String × String)

/-- A registered callback; `raises` records whether invoking it raises. -/
structure Handler where
  hid : Nat
  raises : Bool
deriving Repr, DecidableEq

/-- The `_ws_callbacks` dict: event type → ordered handler list. -/
abbrev Registry := List (String × List Handler)

/-- One observed callback invocation: which handler ran, the payload it
    received, and whether it raised (the raise is swallowed by the loop). -/
inductive CallOutcome where
  | ok
  | exn
deriving Repr, DecidableEq

/-- Trace entry produced by awaiting one callback inside its `try` block. -/
structure Invocation where
  hid : Nat
  arg : Payload
  outcome : CallOutcome
deriving Repr, DecidableEq

/-- Await one callback on `data`; its exception, if any, is recorded (and
    swallowed by the surrounding `try`/`except`). -/
def invokeHandler (cb : Handler) (data : Payload) : Invocation :=
  ⟨cb.hid, data, if cb.raises then CallOutcome.exn else CallOutcome.ok⟩

/-- `on_event(event_type, callback)`: append the handler to the list for the
    event type, creating the list when absent. -/
def ChaosApiClient.on_event (cbs : Registry) (event_type : String) (cb : Handler) :
    Registry :=
  if cbs.any (fun p => p.1 == event_type) then
    cbs.map (fun p => if p.1 == event_type then (p.1, p.2 ++ [cb]) else p)
  else cbs ++ [(event_type, [cb])]

/-- The handler list currently registered for an event type (empty if none). -/
def handlersFor (cbs : Registry) (event_type : String) : List Handler :=
  ((cbs.find? (fun p => p.1 == event_type)).map Prod.snd).getD []

/-- `_process_event(event_type, data)`: when the event type is a key of the
    callbacks dict, await each registered callback in order with the payload,
    swallowing per-callback exceptions; a frame without an `event` member
    (`event_type = none`) matches no key.  Returns the invocation trace. -/
def ChaosApiClient._process_event (cbs : Registry) (event_type : Option String)
    (data : Payload) : List Invocation :=
  match event_type with
  | none => []
  | some et =>
    match cbs.find? (fun p => p.1 == et) with
    | some entry => entry.2.foldl (fun acc cb => acc ++ [invokeHandler cb data]) []
    | none => []

/-- A decoded inbound frame envelope: optional `event` member and the `data`
    payload (defaulted to the empty dict when absent). -/
structure FrameObj where
  event : Option String
  data : Payload
deriving Repr, DecidableEq

/-- The per-frame body of the listener loop: a frame that is not valid JSON
    (`none`) is logged and skipped; the reserved `connection:established`
    event is consumed without dispatch; everything else goes to
    `_process_event`. -/
def handleFrame (cbs : Registry) (f : Option FrameObj) : List Invocation :=
  match f with
  | none => []
  | some fo =>
    if fo.event == some "connection:established" then []
    else ChaosApiClient._process_event cbs fo.event fo.data

/-- `_ws_listener()` run over a finite inbound frame sequence (the stream
    then closes): frames are processed strictly in arrival order and the
    invocation traces are concatenated. -/
def ChaosApiClient._ws_listener (cbs : Registry) (frames : List (Option FrameObj)) :
    List Invocation :=
  frames.foldl (fun acc f => acc ++ handleFrame cbs f) []

/-- The header invariant of the Session State: whenever the stored access
    token is truthy, the header dict maps `Authorization` to exactly
    `"Bearer " ++ token`. -/
def authInvariant (s : ChaosApiClient) : Bool :=
  match s._token with
  | none => true
  | some t => t.isEmpty || (getHeader s._headers "Authorization" == some ("Bearer " ++ t))

/-- In-place update step of `setHeader`: when a binding for the key exists,
    the rewritten list resolves the key to the new value. -/
theorem find?_set (k v : String) :
    ∀ hs : List (String × String), (hs.any fun p => p.1 == k) = true →
      (hs.map (fun p => if p.1 == k then (k, v) else p)).find? (fun p => p.1 == k)
        = some (k, v) := by
  intro hs
  induction hs with
  | nil => intro h; simp at h
  | cons p t ih =>
    intro hany
    cases hp : p.1 == k
    · simp only [List.any_cons, hp, Bool.false_or] at hany
      simp only [List.map_cons, hp, Bool.false_eq_true, if_false, List.find?_cons, hp]
      exact ih hany
    · simp only [List.map_cons, hp, if_true, List.find?_cons, beq_self_eq_true]

/-- Append step of `setHeader`: when no binding for the key exists, the
    appended binding is the one found. -/
theorem find?_fresh (k v : String) :
    ∀ hs : List (String × String), (hs.any fun p => p.1 == k) = false →
      (hs ++ [(k, v)]).find? (fun p => p.1 == k) = some (k, v) := by
  intro hs
  induction hs with
  | nil => simp [List.find?_cons]
  | cons p t ih =>
    intro h
    simp only [List.any_cons, Bool.or_eq_false_iff] at h
    simp only [List.cons_append, List.find?_cons, h.1]
    exact ih h.2

/-- Writing a header makes it readable back with the written value. -/
theorem getHeader_setHeader (hs : List (String × String)) (k v : String) :
    getHeader (setHeader hs k v) k = some v := by
  unfold setHeader getHeader
  split
  next hany => rw [find?_set k v hs hany]; rfl
  next hany =>
    have hf : (hs.any fun p => p.1 == k) = false := by
      cases h : hs.any fun p => p.1 == k
      · rfl
      · exact absurd h hany
    rw [find?_fresh k v hs hf]
    rfl

/-- Removing a header makes its lookup fail. -/
theorem getHeader_popHeader (hs : List (String × String)) (k : String) :
    getHeader (popHeader hs k) k = none := by
  unfold popHeader getHeader
  induction hs with
  | nil => rfl
  | cons p t ih =>
    cases hp : p.1 == k
    · simp only [List.filter_cons, hp, Bool.not_false, if_true, List.find?_cons, hp]
      exact ih
    · simp only [List.filter_cons, hp, Bool.not_true, Bool.false_eq_true, if_false]
      exact ih

/-- The per-site trace counter distributes over trace concatenation. -/
theorem countSite_append (site : String) (l₁ l₂ : List SentReq) :
    countSite site (l₁ ++ l₂) = countSite site l₁ + countSite site l₂ := by
  simp [countSite, List.filter_append]

/-- Every transport call appends exactly its request to the trace. -/
theorem sendReq_sent (site method url : String) (hs : List (String × String)) (w : World) :
    (sendReq site method url hs w).2.sent = w.sent ++ [⟨site, method, url, hs⟩] := by
  unfold sendReq
  cases hq : w.queue <;> simp

/-- A state whose access token is not truthy satisfies the header invariant. -/
theorem authInvariant_of_not_truthy (s : ChaosApiClient) (h : truthy s._token = false) :
    authInvariant s = true := by
  unfold authInvariant
  cases ht : s._token with
  | none => rfl
  | some t =>
    rw [ht] at h
    simp only [truthy, Bool.not_eq_false'] at h
    simp [h]

/-- Recomputing the `Authorization` header from the stored token value
    re-establishes the header invariant, whatever the token is. -/
theorem authInvariant_setHeader (base : String) (tok rt : Option String)
    (hs : List (String × String)) :
    authInvariant ⟨base, tok, rt, setHeader hs "Authorization" (bearerOf tok)⟩ = true := by
  cases tok with
  | none => rfl
  | some t =>
    unfold authInvariant
    simp [getHeader_setHeader, bearerOf]

/-- Shared helper: every `refresh_token` call that returns `False` leaves the
    whole session state exactly as it was. -/
theorem refresh_fail_state (s : ChaosApiClient) (w : World)
    (h : (ChaosApiClient.refresh_token s w).1 = false) :
    (ChaosApiClient.refresh_token s w).2.1 = s := by
  unfold ChaosApiClient.refresh_token at *
  cases ht : truthy s._refresh_token
  · simp [ht]
  · simp only [ht, Bool.true_eq_false, if_false] at h ⊢
    obtain ⟨q, l⟩ := w
    cases q with
    | nil => simp [sendReq]
    | cons r rest =>
      cases r with
      | netError => simp [sendReq]
      | ok hr =>
        cases hok : respOk hr.status
        · simp [sendReq, hok]
        · simp only [sendReq, hok, Bool.true_eq_false, if_false] at h ⊢
          cases hb : hr.body with
          | none => simp
          | some b => simp [hb] at h

/-- Shared helper: the boolean outcome of `refresh_token` depends only on the
    session state and the queued transport outcomes, not on the trace. -/
theorem refresh_result_sent_indep (s : ChaosApiClient) (q : List TransportResult)
    (l₁ l₂ : List SentReq) :
    (ChaosApiClient.refresh_token s ⟨q, l₁⟩).1 = (ChaosApiClient.refresh_token s ⟨q, l₂⟩).1 := by
  unfold ChaosApiClient.refresh_token
  cases ht : truthy s._refresh_token
  · simp
  · simp only [Bool.true_eq_false, if_false]
    cases q with
    | nil => simp [sendReq]
    | cons r rest =>
      cases r with
      | netError => simp [sendReq]
      | ok hr =>
        cases hok : respOk hr.status
        · simp [sendReq, hok]
        · simp only [sendReq, hok, Bool.true_eq_false, if_false]
          cases hb : hr.body with
          | none => simp
          | some b => simp

example :
    (ChaosApiClient.init "http://localhost:3000" none (some "abc") none)._token
      = some "abc" := by decide

example :
    getHeader (ChaosApiClient.init "http://localhost:3000" none (some "abc") none)._headers
      "Authorization" = some "Bearer abc" := by decide

example :
    ChaosApiClient._ws_listener
      (ChaosApiClient.on_event (ChaosApiClient.on_event [] "message" ⟨1, false⟩)
        "message" ⟨2, true⟩)
      [some ⟨some "message", [("content", "hi")]⟩, none,
        some ⟨some "connection:established", []⟩, some ⟨some "message", [("content", "yo")]⟩]
      = [⟨1, [("content", "hi")], CallOutcome.ok⟩, ⟨2, [("content", "hi")], CallOutcome.exn⟩,
         ⟨1, [("content", "yo")], CallOutcome.ok⟩, ⟨2, [("content", "yo")], CallOutcome.exn⟩] := by
  decide

/-- Claim C10 (confirmed): if no refresh token is stored, `logout()` returns
    `True` immediately, performs no server call, and leaves the whole session
    state — including any stored access token and its `Authorization` header —
    untouched. -/
theorem logout_without_refresh_token_is_noop (s : ChaosApiClient) (w : World)
    (h : s._refresh_token = none) :
    ChaosApiClient.logout s w = (true, s, w) := by
  unfold ChaosApiClient.logout
  simp [h, truthy]

/-- Witness for C10 at a client constructed with an access token only. -/
theorem logout_without_refresh_token_is_noop_witness :
    (ChaosApiClient.init "http://localhost:3000" none (some "abc") none)._refresh_token
        = none ∧
      ChaosApiClient.logout (ChaosApiClient.init "http://localhost:3000" none (some "abc") none)
          ⟨[], []⟩
        = (true, ChaosApiClient.init "http://localhost:3000" none (some "abc") none, ⟨[], []⟩) :=
  ⟨by decide,
    logout_without_refresh_token_is_noop
      (ChaosApiClient.init "http://localhost:3000" none (some "abc") none) ⟨[], []⟩ (by decide)⟩

/-- Claim C1 counterexample: a client constructed with an access token but no
    refresh token keeps its access token and its `Authorization` header after
    `logout()` returns, so the unconditional local-clear law is false. -/
theorem logout_keeps_token_counterexample :
    ¬ ((ChaosApiClient.logout
          (ChaosApiClient.init "http://localhost:3000" none (some "abc") none)
          ⟨[], []⟩).2.1._token = none ∧
       getHeader (ChaosApiClient.logout
          (ChaosApiClient.init "http://localhost:3000" none (some "abc") none)
          ⟨[], []⟩).2.1._headers "Authorization" = none) := by
  decide

/-- Claim C1 (corrected): provided a (truthy) refresh token is present when
    `logout()` is called, then for every server outcome — success,
    non-success status, or transport exception — after `logout()` returns the
    session holds no access token and no refresh token, and the
    `Authorization` header is absent. -/
theorem logout_with_refresh_token_clears_credentials (s : ChaosApiClient) (w : World)
    (h : truthy s._refresh_token = true) :
    (ChaosApiClient.logout s w).2.1._token = none ∧
      (ChaosApiClient.logout s w).2.1._refresh_token = none ∧
      getHeader (ChaosApiClient.logout s w).2.1._headers "Authorization" = none := by
  unfold ChaosApiClient.logout
  simp only [h, Bool.true_eq_false, if_false]
  obtain ⟨q, l⟩ := w
  cases q with
  | nil => simp [sendReq, clearedTokens, getHeader_popHeader]
  | cons r rest =>
    cases r with
    | netError => simp [sendReq, clearedTokens, getHeader_popHeader]
    | ok hr => simp [sendReq, clearedTokens, getHeader_popHeader]

/-- Witness for C1 (amended): a logged-in client whose logout transport call
    raises still ends with both tokens and the header cleared. -/
theorem logout_with_refresh_token_clears_credentials_witness :
    truthy (⟨"http://localhost:3000", some "abc", some "ref",
        [("Content-Type", "application/json"), ("Authorization", "Bearer abc")]⟩ :
        ChaosApiClient)._refresh_token = true ∧
      (ChaosApiClient.logout
          ⟨"http://localhost:3000", some "abc", some "ref",
            [("Content-Type", "application/json"), ("Authorization", "Bearer abc")]⟩
          ⟨[TransportResult.netError], []⟩).2.1._token = none ∧
      (ChaosApiClient.logout
          ⟨"http://localhost:3000", some "abc", some "ref",
            [("Content-Type", "application/json"), ("Authorization", "Bearer abc")]⟩
          ⟨[TransportResult.netError], []⟩).2.1._refresh_token = none ∧
      getHeader (ChaosApiClient.logout
          ⟨"http://localhost:3000", some "abc", some "ref",
            [("Content-Type", "application/json"), ("Authorization", "Bearer abc")]⟩
          ⟨[TransportResult.netError], []⟩).2.1._headers "Authorization" = none :=
  ⟨by decide,
    logout_with_refresh_token_clears_credentials
      ⟨"http://localhost:3000", some "abc", some "ref",
        [("Content-Type", "application/json"), ("Authorization", "Bearer abc")]⟩
      ⟨[TransportResult.netError], []⟩ (by decide)⟩

/-- Claim C3 (confirmed): `refresh_token()` never raises (it is total into a
    boolean); with no stored refresh token it returns `False` without issuing
    any transport call (the world, including the trace, is untouched); and on
    every failing outcome it returns `False` with the session state — both
    stored tokens included — exactly as before. -/
theorem refresh_token_failure_is_safe (s : ChaosApiClient) (w : World) :
    (s._refresh_token = none → ChaosApiClient.refresh_token s w = (false, s, w)) ∧
      ((ChaosApiClient.refresh_token s w).1 = false →
        (ChaosApiClient.refresh_token s w).2.1 = s) := by
  constructor
  · intro h
    unfold ChaosApiClient.refresh_token
    simp [h, truthy]
  · exact refresh_fail_state s w

/-- Witness for C3: the token-less branch at a fresh client, and the
    state-preservation branch at a client whose refresh transport raises. -/
theorem refresh_token_failure_is_safe_witness :
    ChaosApiClient.refresh_token
        ⟨"http://localhost:3000", none, none, [("Content-Type", "application/json")]⟩ ⟨[], []⟩
      = (false, ⟨"http://localhost:3000", none, none, [("Content-Type", "application/json")]⟩,
          ⟨[], []⟩) ∧
    (ChaosApiClient.refresh_token
        ⟨"http://localhost:3000", some "abc", some "ref",
          [("Content-Type", "application/json"), ("Authorization", "Bearer abc")]⟩
        ⟨[TransportResult.netError], []⟩).2.1
      = ⟨"http://localhost:3000", some "abc", some "ref",
          [("Content-Type", "application/json"), ("Authorization", "Bearer abc")]⟩ :=
  ⟨(refresh_token_failure_is_safe
      ⟨"http://localhost:3000", none, none, [("Content-Type", "application/json")]⟩
      ⟨[], []⟩).1 (by decide),
    (refresh_token_failure_is_safe
      ⟨"http://localhost:3000", some "abc", some "ref",
        [("Content-Type", "application/json"), ("Authorization", "Bearer abc")]⟩
      ⟨[TransportResult.netError], []⟩).2 (by decide)⟩

/-- Claim C9 (confirmed): every successful `refresh_token()` call replaces
    only the access token: the stored refresh token and the base URL are the
    same as before the call. -/
theorem refresh_success_replaces_only_access_token (s : ChaosApiClient) (w : World)
    (h : (ChaosApiClient.refresh_token s w).1 = true) :
    (ChaosApiClient.refresh_token s w).2.1._refresh_token = s._refresh_token ∧
      (ChaosApiClient.refresh_token s w).2.1.base_url = s.base_url := by
  unfold ChaosApiClient.refresh_token at *
  cases ht : truthy s._refresh_token
  · simp [ht] at h
  · simp only [ht, Bool.true_eq_false, if_false] at h ⊢
    obtain ⟨q, l⟩ := w
    cases q with
    | nil => simp [sendReq] at h
    | cons r rest =>
      cases r with
      | netError => simp [sendReq] at h
      | ok hr =>
        cases hok : respOk hr.status
        · simp [sendReq, hok] at h
        · simp only [sendReq, hok, Bool.true_eq_false, if_false] at h ⊢
          cases hb : hr.body with
          | none => simp [hb] at h
          | some b => simp

/-- Witness for C9 at a successful refresh returning a fresh token. -/
theorem refresh_success_replaces_only_access_token_witness :
    (ChaosApiClient.refresh_token
        ⟨"http://localhost:3000", some "old", some "ref",
          [("Content-Type", "application/json"), ("Authorization", "Bearer old")]⟩
        ⟨[TransportResult.ok ⟨200, some ⟨some "new", none, none⟩⟩], []⟩).1 = true ∧
      (ChaosApiClient.refresh_token
          ⟨"http://localhost:3000", some "old", some "ref",
            [("Content-Type", "application/json"), ("Authorization", "Bearer old")]⟩
          ⟨[TransportResult.ok ⟨200, some ⟨some "new", none, none⟩⟩], []⟩).2.1._refresh_token
        = some "ref" ∧
      (ChaosApiClient.refresh_token
          ⟨"http://localhost:3000", some "old", some "ref",
            [("Content-Type", "application/json"), ("Authorization", "Bearer old")]⟩
          ⟨[TransportResult.ok ⟨200, some ⟨some "new", none, none⟩⟩], []⟩).2.1.base_url
        = "http://localhost:3000" :=
  ⟨by decide,
    (refresh_success_replaces_only_access_token
      ⟨"http://localhost:3000", some "old", some "ref",
        [("Content-Type", "application/json"), ("Authorization", "Bearer old")]⟩
      ⟨[TransportResult.ok ⟨200, some ⟨some "new", none, none⟩⟩], []⟩ (by decide)).1,
    (refresh_success_replaces_only_access_token
      ⟨"http://localhost:3000", some "old", some "ref",
        [("Content-Type", "application/json"), ("Authorization", "Bearer old")]⟩
      ⟨[TransportResult.ok ⟨200, some ⟨some "new", none, none⟩⟩], []⟩ (by decide)).2⟩

/-- Claim C7 (confirmed): `connect_websocket()` with no access token set
    raises the precondition `ValueError` immediately and performs zero
    transport-level connection attempts, whatever the transport would do. -/
theorem connect_websocket_requires_token (s : ChaosApiClient) (transportOk : Bool)
    (h : s._token = none) :
    ChaosApiClient.connect_websocket s transportOk
      = (Except.error (ConnectError.precondition
          "Authentication required before connecting to WebSocket"), 0) := by
  unfold ChaosApiClient.connect_websocket
  simp [h, truthy]

/-- Witness for C7 at a fresh token-less client. -/
theorem connect_websocket_requires_token_witness :
    (⟨"http://localhost:3000", none, none, [("Content-Type", "application/json")]⟩ :
        ChaosApiClient)._token = none ∧
      ChaosApiClient.connect_websocket
          ⟨"http://localhost:3000", none, none, [("Content-Type", "application/json")]⟩ true
        = (Except.error (ConnectError.precondition
            "Authentication required before connecting to WebSocket"), 0) :=
  ⟨by decide,
    connect_websocket_requires_token
      ⟨"http://localhost:3000", none, none, [("Content-Type", "application/json")]⟩ true
      (by decide)⟩

/-- Shared helper: the final header-recomputation step of `__init__`
    establishes the header invariant for any intermediate state. -/
theorem authInvariant_finalize (s₁ : ChaosApiClient) :
    authInvariant (if truthy s₁._token then
        (⟨s₁.base_url, s₁._token, s₁._refresh_token,
          setHeader s₁._headers "Authorization" (bearerOf s₁._token)⟩ : ChaosApiClient)
      else s₁) = true := by
  split
  next h => exact authInvariant_setHeader _ _ _ _
  next h =>
    have hf : truthy s₁._token = false := by
      cases hc : truthy s₁._token
      · rfl
      · exact absurd hc h
    exact authInvariant_of_not_truthy _ hf

/-- Shared helper: construction establishes the header invariant. -/
theorem authInvariant_init (configUrl : String) (base_url token : Option String)
    (stored : Option (Option String × Option String)) :
    authInvariant (ChaosApiClient.init configUrl base_url token stored) = true :=
  authInvariant_finalize _

/-- Shared helper: `login` preserves the header invariant (failures leave the
    state untouched; success recomputes the header from the new token). -/
theorem login_preserves_authInv (s : ChaosApiClient) (email password : String) (w : World)
    (h : authInvariant s = true) :
    authInvariant (ChaosApiClient.login s email password w).2.1 = true := by
  unfold ChaosApiClient.login
  obtain ⟨q, l⟩ := w
  cases q with
  | nil => simpa [sendReq] using h
  | cons r rest =>
    cases r with
    | netError => simpa [sendReq] using h
    | ok hr =>
      cases hb : hr.body with
      | none => simpa [sendReq, hb] using h
      | some b =>
        cases hok : respOk hr.status
        · simpa [sendReq, hb, hok] using h
        · simp only [sendReq, hb, hok, Bool.true_eq_false, if_false]
          exact authInvariant_setHeader _ _ _ _

/-- Shared helper: `refresh_token` preserves the header invariant. -/
theorem refresh_preserves_authInv (s : ChaosApiClient) (w : World)
    (h : authInvariant s = true) :
    authInvariant (ChaosApiClient.refresh_token s w).2.1 = true := by
  unfold ChaosApiClient.refresh_token
  cases ht : truthy s._refresh_token
  · simpa using h
  · simp only [Bool.true_eq_false, if_false]
    obtain ⟨q, l⟩ := w
    cases q with
    | nil => simpa [sendReq] using h
    | cons r rest =>
      cases r with
      | netError => simpa [sendReq] using h
      | ok hr =>
        cases hok : respOk hr.status
        · simpa [sendReq, hok] using h
        · simp only [sendReq, hok, Bool.true_eq_false, if_false]
          cases hb : hr.body with
          | none => simpa using h
          | some b =>
            simp only []
            exact authInvariant_setHeader _ _ _ _

/-- Shared helper: `logout` preserves the header invariant (the clearing
    branch removes the token, making the invariant vacuous). -/
theorem logout_preserves_authInv (s : ChaosApiClient) (w : World)
    (h : authInvariant s = true) :
    authInvariant (ChaosApiClient.logout s w).2.1 = true := by
  unfold ChaosApiClient.logout
  cases ht : truthy s._refresh_token
  · simpa using h
  · simp only [Bool.true_eq_false, if_false]
    obtain ⟨q, l⟩ := w
    cases q with
    | nil => simp [sendReq, clearedTokens, authInvariant]
    | cons r rest =>
      cases r with
      | netError => simp [sendReq, clearedTokens, authInvariant]
      | ok hr => simp [sendReq, clearedTokens, authInvariant]

/-- Shared helper: a `_request` issued with the retry flag already consumed
    (`retry_auth = false`) leaves the session state unchanged and appends
    exactly one request to the transport trace. -/
theorem request_false_char (s : ChaosApiClient) (method endpoint : String)
    (data : Option String) (w : World) :
    (ChaosApiClient._request s method endpoint data false w).2.1 = s ∧
      (ChaosApiClient._request s method endpoint data false w).2.2.sent
        = w.sent ++ [⟨"request", method, s.base_url ++ endpoint, s._headers⟩] := by
  unfold ChaosApiClient._request
  obtain ⟨q, l⟩ := w
  cases q with
  | nil => simp [sendReq, finishRequest]
  | cons r rest =>
    cases r with
    | netError => simp [sendReq]
    | ok hr =>
      cases hb : hr.body with
      | none => simp [sendReq, hb]
      | some b =>
        simp only [sendReq, hb]
        rw [dif_neg (by simp : ¬(hr.status = 401 ∧ false = true ∧
          truthy s._refresh_token = true))]
        unfold finishRequest
        split <;> simp

/-- Shared helper: the request tail keeps the session state and world it is
    given. -/
theorem finishRequest_state (status : Nat) (b : RespBody) (s : ChaosApiClient) (w : World) :
    (finishRequest status b s w).2 = (s, w) := by
  unfold finishRequest
  split <;> rfl

/-- Shared helper: `_request` preserves the header invariant for either value
    of the retry flag (the only state mutation is the embedded refresh). -/
theorem request_preserves_authInv (s : ChaosApiClient) (method endpoint : String)
    (data : Option String) (retry_auth : Bool) (w : World)
    (h : authInvariant s = true) :
    authInvariant (ChaosApiClient._request s method endpoint data retry_auth w).2.1 = true := by
  cases retry_auth
  · rw [(request_false_char s method endpoint data w).1]
    exact h
  · unfold ChaosApiClient._request
    obtain ⟨q, l⟩ := w
    cases q with
    | nil => simpa [sendReq] using h
    | cons r rest =>
      cases r with
      | netError => simpa [sendReq] using h
      | ok hr =>
        cases hb : hr.body with
        | none => simpa [sendReq, hb] using h
        | some b =>
          simp only [sendReq, hb]
          split
          next hcond =>
            rcases heq : ChaosApiClient.refresh_token s
                ⟨rest, l ++ [⟨"request", method, s.base_url ++ endpoint, s._headers⟩]⟩
              with ⟨b₁, s₁, w₂⟩
            have hpres := refresh_preserves_authInv s
              ⟨rest, l ++ [⟨"request", method, s.base_url ++ endpoint, s._headers⟩]⟩ h
            rw [heq] at hpres
            rw [heq]
            cases b₁
            · simp only []
              rw [congrArg Prod.fst (finishRequest_state hr.status b s₁ w₂)]
              exact hpres
            · simp only []
              rw [(request_false_char s₁ method endpoint data w₂).1]
              exact hpres
          next hcond =>
            simp only [finishRequest_state]
            exact h

/-- Claim C5 (confirmed): the `Authorization` header invariant — whenever the
    access token is set (truthy), the header dict maps `Authorization` to
    exactly `"Bearer " ++ token` — is established by construction and
    preserved by `login`, `refresh_token`, `logout`, and `_request` (the
    header being recomputed from the token on every token change and removed
    when the tokens are cleared). -/
theorem auth_header_invariant_preserved :
    (∀ (configUrl : String) (base_url token : Option String)
        (stored : Option (Option String × Option String)),
        authInvariant (ChaosApiClient.init configUrl base_url token stored) = true) ∧
      (∀ (s : ChaosApiClient) (email password : String) (w : World),
        authInvariant s = true →
        authInvariant (ChaosApiClient.login s email password w).2.1 = true) ∧
      (∀ (s : ChaosApiClient) (w : World),
        authInvariant s = true →
        authInvariant (ChaosApiClient.refresh_token s w).2.1 = true) ∧
      (∀ (s : ChaosApiClient) (w : World),
        authInvariant s = true →
        authInvariant (ChaosApiClient.logout s w).2.1 = true) ∧
      (∀ (s : ChaosApiClient) (method endpoint : String) (data : Option String)
        (retry_auth : Bool) (w : World),
        authInvariant s = true →
        authInvariant (ChaosApiClient._request s method endpoint data retry_auth w).2.1
          = true) :=
  ⟨authInvariant_init, login_preserves_authInv, refresh_preserves_authInv,
    logout_preserves_authInv, request_preserves_authInv⟩

/-- Witness for C5: a concrete logged-in client satisfies the invariant, and
    it still satisfies it after a successful refresh that rotates the token. -/
theorem auth_header_invariant_preserved_witness :
    authInvariant
        ⟨"http://localhost:3000", some "old", some "ref",
          [("Content-Type", "application/json"), ("Authorization", "Bearer old")]⟩ = true ∧
      authInvariant
        (ChaosApiClient.refresh_token
          ⟨"http://localhost:3000", some "old", some "ref",
            [("Content-Type", "application/json"), ("Authorization", "Bearer old")]⟩
          ⟨[TransportResult.ok ⟨200, some ⟨some "new", none, none⟩⟩], []⟩).2.1 = true :=
  ⟨by decide,
    auth_header_invariant_preserved.2.2.1
      ⟨"http://localhost:3000", some "old", some "ref",
        [("Content-Type", "application/json"), ("Authorization", "Bearer old")]⟩
      ⟨[TransportResult.ok ⟨200, some ⟨some "new", none, none⟩⟩], []⟩ (by decide)⟩

/-- Shared helper: a trace entry from the refresh site never counts as a
    logical-request send. -/
theorem countSite_refresh_entry (m u : String) (hs : List (String × String)) :
    countSite "request" [⟨"refresh", m, u, hs⟩] = 0 := by
  have h : (("refresh" : String) == "request") = false := by decide
  simp [countSite, List.filter, h]

/-- Shared helper: a trace entry from the request site counts exactly once. -/
theorem countSite_request_entry (m u : String) (hs : List (String × String)) :
    countSite "request" [⟨"request", m, u, hs⟩] = 1 := by
  have h : (("request" : String) == "request") = true := by decide
  simp [countSite, List.filter, h]

/-- Shared helper: `refresh_token` issues no logical-request sends — the
    request-site counter of the trace is unchanged by it. -/
theorem refresh_request_count (s : ChaosApiClient) (w : World) :
    countSite "request" ((ChaosApiClient.refresh_token s w).2.2).sent
      = countSite "request" w.sent := by
  unfold ChaosApiClient.refresh_token
  cases ht : truthy s._refresh_token
  · simp
  · simp only [Bool.true_eq_false, if_false]
    obtain ⟨q, l⟩ := w
    cases q with
    | nil => simp [sendReq, countSite_append, countSite_refresh_entry]
    | cons r rest =>
      cases r with
      | netError => simp [sendReq, countSite_append, countSite_refresh_entry]
      | ok hr =>
        cases hok : respOk hr.status
        · simp [sendReq, hok, countSite_append, countSite_refresh_entry]
        · simp only [sendReq, hok, Bool.true_eq_false, if_false]
          cases hb : hr.body with
          | none => simp [countSite_append, countSite_refresh_entry]
          | some b => simp [countSite_append, countSite_refresh_entry]

/-- Claim C2 (confirmed): for every logical `_request` call (with the retry
    flag at its default `True`) and every transport behaviour, the logical
    request is sent at most twice: the original send plus at most one
    refresh-and-retry, the retried inner call carrying `retry_auth = false`
    so that retries never cascade. -/
theorem request_transport_sends_at_most_two (s : ChaosApiClient) (method endpoint : String)
    (data : Option String) (w : World) :
    countSite "request" ((ChaosApiClient._request s method endpoint data true w).2.2).sent
      ≤ countSite "request" w.sent + 2 := by
  unfold ChaosApiClient._request
  obtain ⟨q, l⟩ := w
  cases q with
  | nil =>
    simp only [sendReq, countSite_append, countSite_request_entry]
    omega
  | cons r rest =>
    cases r with
    | netError =>
      simp only [sendReq, countSite_append, countSite_request_entry]
      omega
    | ok hr =>
      cases hb : hr.body with
      | none =>
        simp only [sendReq, hb, countSite_append, countSite_request_entry]
        omega
      | some b =>
        simp only [sendReq, hb]
        split
        next hcond =>
          rcases heq : ChaosApiClient.refresh_token s
              ⟨rest, l ++ [⟨"request", method, s.base_url ++ endpoint, s._headers⟩]⟩
            with ⟨b₁, s₁, w₂⟩
          have hrc := refresh_request_count s
            ⟨rest, l ++ [⟨"request", method, s.base_url ++ endpoint, s._headers⟩]⟩
          rw [heq] at hrc
          rw [heq]
          cases b₁
          · simp only [finishRequest_state]
            simp only [countSite_append, countSite_request_entry] at hrc ⊢
            omega
          · rw [(request_false_char s₁ method endpoint data w₂).2]
            simp only [countSite_append, countSite_request_entry] at hrc ⊢
            omega
        next hcond =>
          simp only [finishRequest_state]
          simp only [countSite_append, countSite_request_entry]
          omega

/-- Claim C4 (confirmed): when `_request` receives a 401 (with a decodable
    body) and the subsequent refresh attempt fails, the error surfaced to the
    caller is the `ApiError` built from the original unauthorized response —
    status 401 and the `code` / `message` of its error envelope (with the
    documented defaults when the envelope is absent), not a generic error. -/
theorem request_refresh_failure_surfaces_original_error
    (s : ChaosApiClient) (method endpoint : String) (data : Option String)
    (b : RespBody) (rest : List TransportResult) (l : List SentReq)
    (hrt : truthy s._refresh_token = true)
    (hrf : (ChaosApiClient.refresh_token s ⟨rest, []⟩).1 = false) :
    (ChaosApiClient._request s method endpoint data true
        ⟨TransportResult.ok ⟨401, some b⟩ :: rest, l⟩).1
      = Except.error (RequestError.apiError
          ⟨401, (b.error.getD ⟨none, none⟩).message.getD "Request failed",
            (b.error.getD ⟨none, none⟩).code.getD "API_ERROR"⟩) := by
  unfold ChaosApiClient._request
  simp only [sendReq]
  rw [dif_pos ⟨trivial, trivial, hrt⟩]
  have hind := refresh_result_sent_indep s rest
    (l ++ [⟨"request", method, s.base_url ++ endpoint, s._headers⟩]) []
  rw [hrf] at hind
  rcases heq : ChaosApiClient.refresh_token s
      ⟨rest, l ++ [⟨"request", method, s.base_url ++ endpoint, s._headers⟩]⟩
    with ⟨b₁, s₁, w₂⟩
  rw [heq] at hind
  rw [heq]
  cases b₁
  · simp only []
    unfold finishRequest
    simp [respOk]
  · simp at hind

/-- Witness for C4: two queued outcomes — a 401 carrying an error envelope,
    then a transport failure that makes the refresh fail — surface the
    envelope of the original 401. -/
theorem request_refresh_failure_surfaces_original_error_witness :
    truthy (⟨"http://localhost:3000", some "old", some "ref",
        [("Content-Type", "application/json"), ("Authorization", "Bearer old")]⟩ :
        ChaosApiClient)._refresh_token = true ∧
      (ChaosApiClient.refresh_token
          ⟨"http://localhost:3000", some "old", some "ref",
            [("Content-Type", "application/json"), ("Authorization", "Bearer old")]⟩
          ⟨[TransportResult.netError], []⟩).1 = false ∧
      (ChaosApiClient._request
          ⟨"http://localhost:3000", some "old", some "ref",
            [("Content-Type", "application/json"), ("Authorization", "Bearer old")]⟩
          "GET" "/api/users/me" none true
          ⟨[TransportResult.ok
              ⟨401, some ⟨none, none, some ⟨some "Token expired", some "TOKEN_EXPIRED"⟩⟩⟩,
            TransportResult.netError], []⟩).1
        = Except.error (RequestError.apiError ⟨401, "Token expired", "TOKEN_EXPIRED"⟩) :=
  ⟨by decide, by decide,
    request_refresh_failure_surfaces_original_error
      ⟨"http://localhost:3000", some "old", some "ref",
        [("Content-Type", "application/json"), ("Authorization", "Bearer old")]⟩
      "GET" "/api/users/me" none
      ⟨none, none, some ⟨some "Token expired", some "TOKEN_EXPIRED"⟩⟩
      [TransportResult.netError] [] (by decide) (by decide)⟩

/-- Shared helper: the sequential callback loop produces exactly one trace
    entry per registered handler, in list order. -/
theorem foldl_invoke_eq_map (data : Payload) (l : List Handler) :
    ∀ acc : List Invocation,
      l.foldl (fun acc cb => acc ++ [invokeHandler cb data]) acc
        = acc ++ l.map (fun cb => invokeHandler cb data) := by
  induction l with
  | nil => intro acc; simp
  | cons cb t ih =>
    intro acc
    rw [List.foldl_cons, ih, List.map_cons]
    simp [List.append_assoc]

/-- Shared helper: when a key is present, appending a handler via the map
    branch of `on_event` extends exactly that key's list. -/
theorem handlersFor_set (E : String) (cb : Handler) :
    ∀ cbs : Registry, (cbs.any fun p => p.1 == E) = true →
      handlersFor (cbs.map (fun p => if p.1 == E then (p.1, p.2 ++ [cb]) else p)) E
        = handlersFor cbs E ++ [cb] := by
  intro cbs
  induction cbs with
  | nil => intro h; simp at h
  | cons p t ih =>
    intro hany
    cases hp : p.1 == E
    · simp only [List.any_cons, hp, Bool.false_or] at hany
      unfold handlersFor
      simp only [List.map_cons, hp, Bool.false_eq_true, if_false, List.find?_cons, hp]
      exact ih hany
    · unfold handlersFor
      simp only [List.map_cons]
      rw [if_pos hp]
      simp [List.find?_cons, hp]

/-- Shared helper: when a key is absent, the fresh-key branch of `on_event`
    yields a one-element list for that key. -/
theorem handlersFor_fresh (E : String) (cb : Handler) :
    ∀ cbs : Registry, (cbs.any fun p => p.1 == E) = false →
      handlersFor (cbs ++ [(E, [cb])]) E = handlersFor cbs E ++ [cb] := by
  intro cbs
  induction cbs with
  | nil => simp [handlersFor, List.find?_cons]
  | cons p t ih =>
    intro h
    simp only [List.any_cons, Bool.or_eq_false_iff] at h
    unfold handlersFor
    simp only [List.cons_append, List.find?_cons, h.1]
    exact ih h.2

/-- Shared helper: `on_event` appends the handler to the event type's list,
    creating the list when absent. -/
theorem handlersFor_on_event (cbs : Registry) (E : String) (cb : Handler) :
    handlersFor (ChaosApiClient.on_event cbs E cb) E = handlersFor cbs E ++ [cb] := by
  unfold ChaosApiClient.on_event
  cases hany : cbs.any fun p => p.1 == E
  · rw [if_neg (by simp : ¬(false = true))]
    exact handlersFor_fresh E cb cbs hany
  · rw [if_pos rfl]
    exact handlersFor_set E cb cbs hany

/-- Claim C6 (confirmed): registration appends to the handler list of the
    event type, and for every frame decoding to a non-reserved event `E` with
    payload `D`, the listener body invokes exactly the handlers registered
    for `E`, once per registration, in registration order, each receiving
    `D`, one awaited after the other — and an invocation whose handler raises
    is recorded and swallowed without preventing the following invocations
    (the trace is the full pointwise map over the registration list). -/
theorem event_handlers_invoked_once_in_order :
    (∀ (cbs : Registry) (E : String) (cb : Handler),
        handlersFor (ChaosApiClient.on_event cbs E cb) E = handlersFor cbs E ++ [cb]) ∧
      (∀ (cbs : Registry) (E : String) (D : Payload),
        E ≠ "connection:established" →
        handleFrame cbs (some ⟨some E, D⟩)
          = (handlersFor cbs E).map (fun cb => invokeHandler cb D)) := by
  constructor
  · exact handlersFor_on_event
  · intro cbs E D hE
    unfold handleFrame
    have hbe : ((some E : Option String) == some "connection:established") = false := by
      cases hc : (some E : Option String) == some "connection:established"
      · rfl
      · exact absurd (Option.some.inj (eq_of_beq hc)) hE
    simp only [hbe, Bool.false_eq_true, if_false]
    unfold ChaosApiClient._process_event
    cases hf : cbs.find? fun p => p.1 == E with
    | none => simp [handlersFor, hf]
    | some entry => simp [handlersFor, hf, foldl_invoke_eq_map]

/-- Witness for C6: two handlers registered for `"message"` and one frame
    carrying that event give exactly two invocations, in registration order,
    each receiving the payload, the first handler's raise not blocking the
    second. -/
theorem event_handlers_invoked_once_in_order_witness :
    handleFrame
        (ChaosApiClient.on_event (ChaosApiClient.on_event [] "message" ⟨1, true⟩)
          "message" ⟨2, false⟩)
        (some ⟨some "message", [("content", "hi")]⟩)
      = (handlersFor
          (ChaosApiClient.on_event (ChaosApiClient.on_event [] "message" ⟨1, true⟩)
            "message" ⟨2, false⟩) "message").map
          (fun cb => invokeHandler cb [("content", "hi")]) ∧
      handleFrame
        (ChaosApiClient.on_event (ChaosApiClient.on_event [] "message" ⟨1, true⟩)
          "message" ⟨2, false⟩)
        (some ⟨some "message", [("content", "hi")]⟩)
      = [⟨1, [("content", "hi")], CallOutcome.exn⟩,
         ⟨2, [("content", "hi")], CallOutcome.ok⟩] :=
  ⟨event_handlers_invoked_once_in_order.2
      (ChaosApiClient.on_event (ChaosApiClient.on_event [] "message" ⟨1, true⟩)
        "message" ⟨2, false⟩)
      "message" [("content", "hi")] (by decide),
    by decide⟩

/-- Shared helper: the listener's fold is a homomorphism in its accumulator. -/
theorem foldl_handle_init (cbs : Registry) :
    ∀ (frames : List (Option FrameObj)) (acc : List Invocation),
      frames.foldl (fun a f => a ++ handleFrame cbs f) acc
        = acc ++ frames.foldl (fun a f => a ++ handleFrame cbs f) [] := by
  intro frames
  induction frames with
  | nil => intro acc; simp
  | cons f t ih =>
    intro acc
    rw [List.foldl_cons, List.foldl_cons, ih (acc ++ handleFrame cbs f),
      ih ([] ++ handleFrame cbs f)]
    simp [List.append_assoc]

/-- Claim C8 (confirmed): a malformed (non-decodable) frame anywhere in the
    inbound sequence is skipped without terminating the receive loop — the
    dispatch trace is exactly the trace of the frames before it followed by
    the trace of the frames after it, so every later valid frame is still
    dispatched. -/
theorem listener_skips_malformed_frames (cbs : Registry) (xs ys : List (Option FrameObj)) :
    ChaosApiClient._ws_listener cbs (xs ++ none :: ys)
      = ChaosApiClient._ws_listener cbs xs ++ ChaosApiClient._ws_listener cbs ys := by
  unfold ChaosApiClient._ws_listener
  rw [List.foldl_append, List.foldl_cons]
  have hnone : handleFrame cbs none = [] := rfl
  rw [hnone, List.append_nil]
  exact foldl_handle_init cbs ys _
